import Mathlib

/-!
Verification of `HighLevelZmqClient` (src/cpp/HighLevelZmqClient.{hpp,cpp}).

The client is a synchronous command/response façade over a ZMQ DEALER
socket.  We embed:

* JSON values (`JVal`) as used through nlohmann::json, with objects kept
  as key-sorted association lists (nlohmann's object container is
  `std::map<std::string, json>`, which keeps keys in ascending order);
* the transport as an oracle (`TransportBehavior`) describing what the
  single send/receive round trip does: throw, yield no message, yield a
  body that fails to parse, or yield a parsed JSON value;
* the client state (`ClientState`): the `connected_` flag and the fixed
  `client_type_`;
* each façade method as a Lean function of the state and the transport
  oracle.  C++ exceptions that a method can propagate to its caller
  (nlohmann type errors from `value`/`get` on mismatched types) are
  modelled with `Except Unit`; exceptions that the source catches are
  not visible in the result type, mirroring the catch blocks.

Numbers are modelled as `ℚ`: every numeric literal appearing in the
claims (0, 1, 0.5, 2) is exactly representable in C++ `float`, so `ℚ`
is a faithful carrier for them.  Logging (`LOGE`/`LOGI`) is external to
the repository (excluded collaborator) and is modelled as a no-op that
does not evaluate its format arguments.
-/

/-- JSON values as manipulated through nlohmann::json.  Object fields
are kept sorted by key, matching `std::map` iteration order. -/
inductive JVal where
  | null
  | bool (b : Bool)
  | num (q : ℚ)
  | str (s : String)
  | arr (xs : List JVal)
  | obj (fields : List (String × JVal))

/-- Lexicographic comparison of character lists by code point: the
order `std::less<std::string>` induces on these ASCII keys. -/
def charListLt : List Char → List Char → Bool
  | [], [] => false
  | [], _ :: _ => true
  | _ :: _, [] => false
  | a :: as, b :: bs =>
    if a.toNat < b.toNat then true
    else if b.toNat < a.toNat then false
    else charListLt as bs

/-- Key order of the `std::map` backing nlohmann json objects. -/
def strLt (a b : String) : Bool := charListLt a.data b.data

/-- Insert a key/value pair into a key-sorted association list,
replacing an existing binding: the behaviour of assignment through
`json::operator[]` on the underlying `std::map`. -/
def insertField (k : String) (v : JVal) : List (String × JVal) → List (String × JVal)
  | [] => [(k, v)]
  | (k', v') :: rest =>
    if strLt k k' then (k, v) :: (k', v') :: rest
    else if k = k' then (k, v) :: rest
    else (k', v') :: insertField k v rest

/-- Look a key up in an object's field list. -/
def lookupField (k : String) : List (String × JVal) → Option JVal
  | [] => none
  | (k', v') :: rest => if k = k' then some v' else lookupField k rest

/-- `j[k] = v` on an nlohmann json value: on an object it inserts or
replaces the binding; on `null` (a default-constructed `json`) it first
turns the value into an empty object.  The source only applies
`operator[]`-assignment to null or object values. -/
def JVal.objSet (j : JVal) (k : String) (v : JVal) : JVal :=
  match j with
  | .obj fs => .obj (insertField k v fs)
  | _ => .obj [(k, v)]

/-- Read `j[k]` from an object (used only under a `contains` guard in
the source, so the non-object/missing-key fallback is never reached). -/
def JVal.objGetD (j : JVal) (k : String) : JVal :=
  match j with
  | .obj fs => (lookupField k fs).getD .null
  | _ => .null

/-- `j.contains(k)`: true iff `j` is an object with a binding for `k`
(nlohmann's `contains` returns false on non-objects). -/
def JVal.containsKey (j : JVal) (k : String) : Bool :=
  match j with
  | .obj fs => (lookupField k fs).isSome
  | _ => false

/-- `j.value(k, d)` for a boolean default: absent key yields the
default; a present non-boolean value makes nlohmann throw a
`type_error`, modelled as `.error ()`; calling `value` on a non-object
also throws. -/
def JVal.valueBool (j : JVal) (k : String) (d : Bool) : Except Unit Bool :=
  match j with
  | .obj fs =>
    match lookupField k fs with
    | none => .ok d
    | some (.bool b) => .ok b
    | some _ => .error ()
  | _ => .error ()

/-- `j.value(k, d)` for a numeric default (the `result`/`value` fields,
returned as `uint32_t` in the source; all responses considered by the
claims are small non-negative integers, within `uint32_t` range). -/
def JVal.valueNum (j : JVal) (k : String) (d : ℚ) : Except Unit ℚ :=
  match j with
  | .obj fs =>
    match lookupField k fs with
    | none => .ok d
    | some (.num q) => .ok q
    | some _ => .error ()
  | _ => .error ()

/-- Element-wise conversion of a JSON array's members to floats, as in
`get<std::vector<float>>()`: a non-numeric element throws. -/
def getFloatsList : List JVal → Except Unit (List ℚ)
  | [] => .ok []
  | v :: rest =>
    match v with
    | .num q =>
      match getFloatsList rest with
      | .ok qs => .ok (q :: qs)
      | .error e => .error e
    | _ => .error ()

/-- `j.get<std::vector<float>>()`: requires a JSON array of numbers;
anything else throws a `type_error`. -/
def JVal.getFloats (j : JVal) : Except Unit (List ℚ) :=
  match j with
  | .arr xs => getFloatsList xs
  | _ => .error ()

/-- The client's role, `ClientType` in the header. -/
inductive ClientType where
  | REMOTE_CONTROLLER
  | NAVIGATION
deriving DecidableEq, Repr

/-- The mutable client state: `connected_` and the fixed `client_type_`.
The socket/endpoint members carry no state the claims depend on. -/
structure ClientState where
  connected : Bool
  client_type : ClientType
deriving DecidableEq, Repr

/-- What the single send/receive round trip inside `sendRequest` does:
`throws` — `send` or `recv` throws; `noMessage` — `recv` returns false;
`reply none` — a body arrives but `json::parse` throws;
`reply (some j)` — a body arrives and parses to `j`. -/
inductive TransportBehavior where
  | throws
  | noMessage
  | reply (parsed : Option JVal)

/-- The envelope synthesized by `sendRequest` when `connected_` is
false (fields in `std::map` key order). -/
def notConnectedEnv : JVal :=
  ((JVal.null.objSet "success" (.bool false)).objSet "message"
    (.str "Not connected to service"))

/-- The envelope synthesized by `sendRequest` when the round trip
fails (transport exception, no message, or parse failure). -/
def requestFailedEnv : JVal :=
  ((JVal.null.objSet "success" (.bool false)).objSet "message"
    (.str "Request failed"))

/-- Result of `sendRequest`: the returned envelope together with the
trace of request envelopes actually handed to the transport (empty
when no transport I/O was attempted). -/
structure SendResult where
  response : JVal
  io : List JVal

/-- `HighLevelZmqClient::sendRequest`.  Disconnected: synthesize the
not-connected envelope, no transport I/O.  Connected: serialize and
send, one blocking receive, parse; every exception in that block is
caught (`catch (const std::exception &)` covers both `zmq::error_t`
and nlohmann's parse errors) and, like a false `recv`, falls through
to the request-failed envelope.  The function is total: it never
propagates an exception. -/
def sendRequest (connected : Bool) (t : TransportBehavior) (request : JVal) :
    SendResult :=
  if connected then
    match t with
    | .reply (some j) => ⟨j, [request]⟩
    | _ => ⟨requestFailedEnv, [request]⟩
  else
    ⟨notConnectedEnv, []⟩

/-- A request envelope with a bare command and no params, as built by
the parameterless façade methods. -/
def simpleRequest (cmd : String) : JVal :=
  JVal.null.objSet "command" (.str cmd)

/-- The `register` envelope sent during `connect`. -/
def registerRequest (ct : ClientType) : JVal :=
  let r := JVal.null.objSet "command" (.str "register")
  r.objSet "params" ((r.objGetD "params").objSet "client_type"
    (.str (if ct = .REMOTE_CONTROLLER then "remote_controller" else "navigation")))

/-- Result of `connect`: the returned value (`.error ()` models a
propagated nlohmann `type_error` — `connect` only catches
`zmq::error_t`), the resulting state, and the register envelopes
handed to `sendRequest`. -/
structure ConnectResult where
  ret : Except Unit Bool
  state : ClientState
  requests : List JVal

/-- What the `socket_.connect(tcp_endpoint_)` call does: succeed (after
which the registration round trip behaves as `t`), or throw
`zmq::error_t`. -/
inductive ConnectBehavior where
  | connectThrows
  | ok (t : TransportBehavior)

/-- `HighLevelZmqClient::connect`.  Already connected: return true at
once, no registration.  Otherwise open the socket (may throw, caught),
set `connected_ := true`, run the registration round trip and require
`response.value("success", false)`; on a false/absent success flag,
`disconnect()` and return false. -/
def connect (st : ClientState) (cb : ConnectBehavior) : ConnectResult :=
  if st.connected then ⟨.ok true, st, []⟩
  else
    match cb with
    | .connectThrows => ⟨.ok false, { st with connected := false }, []⟩
    | .ok t =>
      let st1 : ClientState := { st with connected := true }
      let req := registerRequest st.client_type
      let sr := sendRequest st1.connected t req
      match sr.response.valueBool "success" false with
      | .error e => ⟨.error e, st1, [req]⟩
      | .ok true => ⟨.ok true, st1, [req]⟩
      | .ok false => ⟨.ok false, { st1 with connected := false }, [req]⟩

/-- `HighLevelZmqClient::disconnect`: clear `connected_` (the guard
only gates the log line). -/
def disconnect (st : ClientState) : ClientState :=
  { st with connected := false }

/-- `isConnected()`: pure read of `connected_`. -/
def isConnected (st : ClientState) : Bool :=
  st.connected

/-- Result of a façade call that may be rejected before any request is
built: the returned value and the envelopes handed to `sendRequest`. -/
structure CallResult (α : Type) where
  value : Except Unit α
  requests : List JVal

/-- The `setMode` request envelope. -/
def setModeRequest (mode : String) : JVal :=
  let r := JVal.null.objSet "command" (.str "setMode")
  r.objSet "params" ((r.objGetD "params").objSet "mode" (.str mode))

/-- `HighLevelZmqClient::setMode`: a non-REMOTE_CONTROLLER client is
rejected locally (logged) before any envelope is built; otherwise one
round trip and `value("success", false)`. -/
def setMode (st : ClientState) (t : TransportBehavior) (mode : String) :
    CallResult Bool :=
  if st.client_type ≠ ClientType.REMOTE_CONTROLLER then ⟨.ok false, []⟩
  else
    let sr := sendRequest st.connected t (setModeRequest mode)
    ⟨sr.response.valueBool "success" false, sr.io⟩

/-- The `move` request envelope, built field by field exactly as in the
source: `request["command"] = "move"; request["params"]["vx"] = vx;
request["params"]["vy"] = vy; request["params"]["yaw_rate"] = yaw_rate;`. -/
def moveRequest (vx vy yaw_rate : ℚ) : JVal :=
  let r := JVal.null.objSet "command" (.str "move")
  let r := r.objSet "params" ((r.objGetD "params").objSet "vx" (.num vx))
  let r := r.objSet "params" ((r.objGetD "params").objSet "vy" (.num vy))
  r.objSet "params" ((r.objGetD "params").objSet "yaw_rate" (.num yaw_rate))

/-- `HighLevelZmqClient::move`: one round trip, then
`value("result", 0)`. -/
def move (connected : Bool) (t : TransportBehavior) (vx vy yaw_rate : ℚ) :
    Except Unit ℚ :=
  (sendRequest connected t (moveRequest vx vy yaw_rate)).response.valueNum "result" 0

/-- `HighLevelZmqClient::standUp`: one round trip, then
`value("result", 0)`. -/
def standUp (connected : Bool) (t : TransportBehavior) : Except Unit ℚ :=
  (sendRequest connected t (simpleRequest "standUp")).response.valueNum "result" 0

/-- `HighLevelZmqClient::lieDown`: one round trip, then
`value("result", 0)`. -/
def lieDown (connected : Bool) (t : TransportBehavior) : Except Unit ℚ :=
  (sendRequest connected t (simpleRequest "lieDown")).response.valueNum "result" 0

/-- `HighLevelZmqClient::passive`: one round trip, then
`value("result", 0)`. -/
def passive (connected : Bool) (t : TransportBehavior) : Except Unit ℚ :=
  (sendRequest connected t (simpleRequest "passive")).response.valueNum "result" 0

/-- `HighLevelZmqClient::jump`: one round trip, then
`value("result", 0)`. -/
def jump (connected : Bool) (t : TransportBehavior) : Except Unit ℚ :=
  (sendRequest connected t (simpleRequest "jump")).response.valueNum "result" 0

/-- `HighLevelZmqClient::frontJump`: one round trip, then
`value("result", 0)`. -/
def frontJump (connected : Bool) (t : TransportBehavior) : Except Unit ℚ :=
  (sendRequest connected t (simpleRequest "frontJump")).response.valueNum "result" 0

/-- `HighLevelZmqClient::backflip`: one round trip, then
`value("result", 0)`. -/
def backflip (connected : Bool) (t : TransportBehavior) : Except Unit ℚ :=
  (sendRequest connected t (simpleRequest "backflip")).response.valueNum "result" 0

/-- `HighLevelZmqClient::shakeHand`: one round trip, then
`value("result", 0)`. -/
def shakeHand (connected : Bool) (t : TransportBehavior) : Except Unit ℚ :=
  (sendRequest connected t (simpleRequest "shakeHand")).response.valueNum "result" 0

/-- The `attitudeControl` request envelope, built field by field as in
the source: `request["command"] = "attitudeControl";
request["params"]["roll_vel"] = roll_vel; ...["pitch_vel"] = pitch_vel;
...["yaw_vel"] = yaw_vel; ...["height_vel"] = height_vel;`. -/
def attitudeControlRequest (roll_vel pitch_vel yaw_vel height_vel : ℚ) : JVal :=
  let r := JVal.null.objSet "command" (.str "attitudeControl")
  let r := r.objSet "params" ((r.objGetD "params").objSet "roll_vel" (.num roll_vel))
  let r := r.objSet "params" ((r.objGetD "params").objSet "pitch_vel" (.num pitch_vel))
  let r := r.objSet "params" ((r.objGetD "params").objSet "yaw_vel" (.num yaw_vel))
  r.objSet "params" ((r.objGetD "params").objSet "height_vel" (.num height_vel))

/-- `HighLevelZmqClient::attitudeControl`: one round trip, then
`value("result", 0)`. -/
def attitudeControl (connected : Bool) (t : TransportBehavior)
    (roll_vel pitch_vel yaw_vel height_vel : ℚ) : Except Unit ℚ :=
  (sendRequest connected t
    (attitudeControlRequest roll_vel pitch_vel yaw_vel height_vel)).response.valueNum
    "result" 0

/-- The `twoLegStand` request envelope: `request["command"] =
"twoLegStand"; request["params"]["vx"] = vx;
request["params"]["yaw_rate"] = yaw_rate;`. -/
def twoLegStandRequest (vx yaw_rate : ℚ) : JVal :=
  let r := JVal.null.objSet "command" (.str "twoLegStand")
  let r := r.objSet "params" ((r.objGetD "params").objSet "vx" (.num vx))
  r.objSet "params" ((r.objGetD "params").objSet "yaw_rate" (.num yaw_rate))

/-- `HighLevelZmqClient::twoLegStand`: one round trip, then
`value("result", 0)`. -/
def twoLegStand (connected : Bool) (t : TransportBehavior) (vx yaw_rate : ℚ) :
    Except Unit ℚ :=
  (sendRequest connected t (twoLegStandRequest vx yaw_rate)).response.valueNum
    "result" 0

/-- A parsed server reply `{"success":true,"result":2}` (fields in
`std::map` key order). -/
def resultTwoReply : TransportBehavior :=
  .reply (some (.obj [("result", .num 2), ("success", .bool true)]))

/-- A parsed server reply `{"success":false}`. -/
def successFalseReply : TransportBehavior :=
  .reply (some (.obj [("success", .bool false)]))

/-- The shared body of the sixteen vector-returning query methods:
one round trip with a bare command, then
`if (response.contains("values")) return response["values"].get<std::vector<float>>();`
else the method's fixed default vector. -/
def vectorQuery (cmd : String) (deflt : List ℚ) (connected : Bool)
    (t : TransportBehavior) : Except Unit (List ℚ) :=
  let resp := (sendRequest connected t (simpleRequest cmd)).response
  if resp.containsKey "values" then (resp.objGetD "values").getFloats
  else .ok deflt

/-- `getQuaternion`: default `{0.0f, 0.0f, 0.0f, 1.0f}` (the identity
quaternion, per the source comment 默认四元数). -/
def getQuaternion (connected : Bool) (t : TransportBehavior) : Except Unit (List ℚ) :=
  vectorQuery "getQuaternion" [0, 0, 0, 1] connected t

/-- `getRPY`: default `{0,0,0}`. -/
def getRPY (connected : Bool) (t : TransportBehavior) : Except Unit (List ℚ) :=
  vectorQuery "getRPY" [0, 0, 0] connected t

/-- `getBodyAcc`: default `{0,0,0}`. -/
def getBodyAcc (connected : Bool) (t : TransportBehavior) : Except Unit (List ℚ) :=
  vectorQuery "getBodyAcc" [0, 0, 0] connected t

/-- `getBodyGyro`: default `{0,0,0}`. -/
def getBodyGyro (connected : Bool) (t : TransportBehavior) : Except Unit (List ℚ) :=
  vectorQuery "getBodyGyro" [0, 0, 0] connected t

/-- `getPosition`: default `{0,0,0}`. -/
def getPosition (connected : Bool) (t : TransportBehavior) : Except Unit (List ℚ) :=
  vectorQuery "getPosition" [0, 0, 0] connected t

/-- `getWorldVelocity`: default `{0,0,0}`. -/
def getWorldVelocity (connected : Bool) (t : TransportBehavior) : Except Unit (List ℚ) :=
  vectorQuery "getWorldVelocity" [0, 0, 0] connected t

/-- `getBodyVelocity`: default `{0,0,0}`. -/
def getBodyVelocity (connected : Bool) (t : TransportBehavior) : Except Unit (List ℚ) :=
  vectorQuery "getBodyVelocity" [0, 0, 0] connected t

/-- `getLegAbadJoint`: default `{0,0,0,0}`. -/
def getLegAbadJoint (connected : Bool) (t : TransportBehavior) : Except Unit (List ℚ) :=
  vectorQuery "getLegAbadJoint" [0, 0, 0, 0] connected t

/-- `getLegHipJoint`: default `{0,0,0,0}`. -/
def getLegHipJoint (connected : Bool) (t : TransportBehavior) : Except Unit (List ℚ) :=
  vectorQuery "getLegHipJoint" [0, 0, 0, 0] connected t

/-- `getLegKneeJoint`: default `{0,0,0,0}`. -/
def getLegKneeJoint (connected : Bool) (t : TransportBehavior) : Except Unit (List ℚ) :=
  vectorQuery "getLegKneeJoint" [0, 0, 0, 0] connected t

/-- `getLegAbadJointVel`: default `{0,0,0,0}`. -/
def getLegAbadJointVel (connected : Bool) (t : TransportBehavior) : Except Unit (List ℚ) :=
  vectorQuery "getLegAbadJointVel" [0, 0, 0, 0] connected t

/-- `getLegHipJointVel`: default `{0,0,0,0}`. -/
def getLegHipJointVel (connected : Bool) (t : TransportBehavior) : Except Unit (List ℚ) :=
  vectorQuery "getLegHipJointVel" [0, 0, 0, 0] connected t

/-- `getLegKneeJointVel`: default `{0,0,0,0}`. -/
def getLegKneeJointVel (connected : Bool) (t : TransportBehavior) : Except Unit (List ℚ) :=
  vectorQuery "getLegKneeJointVel" [0, 0, 0, 0] connected t

/-- `getLegAbadJointTorque`: default `{0,0,0,0}`. -/
def getLegAbadJointTorque (connected : Bool) (t : TransportBehavior) : Except Unit (List ℚ) :=
  vectorQuery "getLegAbadJointTorque" [0, 0, 0, 0] connected t

/-- `getLegHipJointTorque`: default `{0,0,0,0}`. -/
def getLegHipJointTorque (connected : Bool) (t : TransportBehavior) : Except Unit (List ℚ) :=
  vectorQuery "getLegHipJointTorque" [0, 0, 0, 0] connected t

/-- `getLegKneeJointTorque`: default `{0,0,0,0}`. -/
def getLegKneeJointTorque (connected : Bool) (t : TransportBehavior) : Except Unit (List ℚ) :=
  vectorQuery "getLegKneeJointTorque" [0, 0, 0, 0] connected t

/-- Little-endian decimal digits of `n`, as characters. -/
def decDigits (n : Nat) : List Char :=
  if h : n < 10 then [Nat.digitChar n]
  else Nat.digitChar (n % 10) :: decDigits (n / 10)
decreasing_by exact Nat.div_lt_self (by omega) (by omega)

/-- `std::to_string` on a non-negative integer: the decimal numeral
(most significant digit first, `"0"` for zero). -/
def natToString (n : Nat) : String :=
  ⟨(decDigits n).reverse⟩

/-- The role tag used in the socket identity. -/
def roleTag (ct : ClientType) : String :=
  if ct = .REMOTE_CONTROLLER then "rc" else "nav"

/-- The DEALER-socket identity set in the constructor:
`client_type_str + "_" + std::to_string(steady_clock timestamp)`.
The timestamp (a tick count since the clock epoch, non-negative on
every real platform) is a constructor parameter of the model. -/
def identityString (ct : ClientType) (timestamp : Nat) : String :=
  roleTag ct ++ "_" ++ natToString timestamp

/-- Numeric value of a little-endian digit-character list: the inverse
used to prove `decDigits` injective. -/
def decValue : List Char → Nat
  | [] => 0
  | c :: cs => (c.toNat - 48) + 10 * decValue cs

/-! ## Helper lemmas -/

/-- A decimal digit character decodes back to its digit. -/
theorem digitChar_val (d : Nat) (h : d < 10) : (Nat.digitChar d).toNat - 48 = d := by
  interval_cases d <;> rfl

/-- `decValue` inverts `decDigits`. -/
theorem decValue_decDigits (n : Nat) : decValue (decDigits n) = n := by
  induction n using Nat.strong_induction_on with
  | _ n ih =>
    rw [decDigits]
    by_cases h : n < 10
    · simp [h, decValue, digitChar_val n h]
    · simp [h, decValue, digitChar_val (n % 10) (Nat.mod_lt n (by omega)),
        ih (n / 10) (Nat.div_lt_self (by omega) (by omega))]
      omega

/-- Distinct naturals have distinct decimal digit lists. -/
theorem decDigits_injective : Function.Injective decDigits := by
  intro a b h
  have := congrArg decValue h
  rwa [decValue_decDigits, decValue_decDigits] at this

/-- `std::to_string` is injective on non-negative integers. -/
theorem natToString_injective : Function.Injective natToString := by
  intro a b h
  apply decDigits_injective
  have hdata : (decDigits a).reverse = (decDigits b).reverse := congrArg String.data h
  exact List.reverse_injective hdata

/-- Converting an array of JSON numbers to floats returns exactly the
carried rationals. -/
theorem getFloatsList_map_num (vs : List ℚ) :
    getFloatsList (vs.map JVal.num) = .ok vs := by
  induction vs with
  | nil => rfl
  | cons a l ih => simp [getFloatsList, ih]

/-- Inserting under one key does not change lookups of another key. -/
theorem lookupField_insertField_ne (k k' : String) (v : JVal)
    (fs : List (String × JVal)) (h : k ≠ k') :
    lookupField k (insertField k' v fs) = lookupField k fs := by
  induction fs with
  | nil => simp [insertField, lookupField, h]
  | cons p rest ih =>
    obtain ⟨k'', v''⟩ := p
    by_cases h1 : strLt k' k'' <;> by_cases h2 : k' = k'' <;>
      simp [insertField, lookupField, h1, h2, ih] <;>
      by_cases h3 : k = k'' <;> simp_all [lookupField]

/-! ## Claim theorems -/

/-- C1 (counterexample): the claim that every vector-returning
operation yields the all-zero vector of its documented length when
disconnected fails on `getQuaternion`: on a Disconnected session it
returns the identity quaternion `[0,0,0,1]`, not `[0,0,0,0]`. -/
theorem getQuaternion_disconnected_not_all_zero :
    getQuaternion false .throws = .ok [0, 0, 0, 1] ∧
    getQuaternion false .throws ≠ .ok [0, 0, 0, 0] := by
  refine ⟨rfl, ?_⟩
  intro h
  simp [getQuaternion, vectorQuery, sendRequest, notConnectedEnv, JVal.objSet,
    insertField, JVal.containsKey, lookupField] at h

/-- C1 (amended): on a Disconnected session, whatever the transport
oracle would do, every vector-returning operation returns its
documented fixed-length default: the all-zero vector of length 3 for
RPY/acceleration/gyro/position/velocity, of length 4 for the per-leg
joint arrays, and the identity quaternion `[0,0,0,1]` for
`getQuaternion`. -/
theorem vector_getters_disconnected_defaults :
    ∀ t : TransportBehavior,
      getQuaternion false t = .ok [0, 0, 0, 1] ∧
      getRPY false t = .ok [0, 0, 0] ∧
      getBodyAcc false t = .ok [0, 0, 0] ∧
      getBodyGyro false t = .ok [0, 0, 0] ∧
      getPosition false t = .ok [0, 0, 0] ∧
      getWorldVelocity false t = .ok [0, 0, 0] ∧
      getBodyVelocity false t = .ok [0, 0, 0] ∧
      getLegAbadJoint false t = .ok [0, 0, 0, 0] ∧
      getLegHipJoint false t = .ok [0, 0, 0, 0] ∧
      getLegKneeJoint false t = .ok [0, 0, 0, 0] ∧
      getLegAbadJointVel false t = .ok [0, 0, 0, 0] ∧
      getLegHipJointVel false t = .ok [0, 0, 0, 0] ∧
      getLegKneeJointVel false t = .ok [0, 0, 0, 0] ∧
      getLegAbadJointTorque false t = .ok [0, 0, 0, 0] ∧
      getLegHipJointTorque false t = .ok [0, 0, 0, 0] ∧
      getLegKneeJointTorque false t = .ok [0, 0, 0, 0] :=
  fun _ => ⟨rfl, rfl, rfl, rfl, rfl, rfl, rfl, rfl, rfl, rfl, rfl, rfl, rfl,
    rfl, rfl, rfl⟩

/-- C2: whatever request envelope is being sent, each failing transport
behaviour — send/receive throwing, receive yielding no message, or the
reply body failing to parse — makes `sendRequest` return the
synthesized `{success:false, message:"Request failed"}` envelope.  The
model function is total, reflecting that the catch block converts every
exception instead of propagating it, and the synthesized envelope is
the well-formed two-field object spelled out in the last conjunct. -/
theorem sendRequest_failure_synthesized :
    ∀ req : JVal,
      sendRequest true .throws req = ⟨requestFailedEnv, [req]⟩ ∧
      sendRequest true .noMessage req = ⟨requestFailedEnv, [req]⟩ ∧
      sendRequest true (.reply none) req = ⟨requestFailedEnv, [req]⟩ ∧
      requestFailedEnv =
        .obj [("message", .str "Request failed"), ("success", .bool false)] :=
  fun _ => ⟨rfl, rfl, rfl, rfl⟩

/-- C3: on a Disconnected session, `sendRequest` returns the
synthesized `{success:false, message:"Not connected to service"}`
envelope for every request and transport behaviour, and its I/O trace
is empty: no transport send or receive is performed. -/
theorem sendRequest_disconnected_no_io :
    ∀ (t : TransportBehavior) (req : JVal),
      sendRequest false t req = ⟨notConnectedEnv, []⟩ ∧
      notConnectedEnv =
        .obj [("message", .str "Not connected to service"),
          ("success", .bool false)] :=
  fun _ _ => ⟨rfl, rfl⟩

/-- C4: `setMode` on a client whose role is NAVIGATION returns false
and hands no envelope to `sendRequest` (so no transport I/O occurs),
for every mode string, connection state and transport behaviour: the
rejection is local and happens before any request is built. -/
theorem setMode_navigator_rejected (st : ClientState) (t : TransportBehavior)
    (mode : String) (h : st.client_type = ClientType.NAVIGATION) :
    setMode st t mode = ⟨.ok false, []⟩ := by
  simp [setMode, h]

/-- Witness for C4 at a concrete state, mode and transport. -/
theorem setMode_navigator_rejected_witness :
    (ClientState.mk true ClientType.NAVIGATION).client_type =
      ClientType.NAVIGATION ∧
    setMode ⟨true, ClientType.NAVIGATION⟩ (.reply (some (.obj [("success",
      .bool true)]))) "manual" = ⟨.ok false, []⟩ :=
  ⟨rfl, setMode_navigator_rejected _ _ _ rfl⟩

/-- C5: the connection state machine.  (1) Whenever `connect` returns
success, `isConnected()` is true afterwards.  (2) After `disconnect()`,
`isConnected()` is false.  (3) `disconnect()` is idempotent: a repeated
call changes nothing beyond the first.  (4) `connect` on an
already-connected session is a no-op returning success: the state is
unchanged and no register envelope is sent. -/
theorem connection_state_machine :
    (∀ (st : ClientState) (cb : ConnectBehavior),
      (connect st cb).ret = .ok true → isConnected (connect st cb).state = true) ∧
    (∀ st : ClientState, isConnected (disconnect st) = false) ∧
    (∀ st : ClientState, disconnect (disconnect st) = disconnect st) ∧
    (∀ (st : ClientState) (cb : ConnectBehavior),
      st.connected = true → connect st cb = ⟨.ok true, st, []⟩) := by
  refine ⟨?_, fun st => rfl, fun st => rfl, ?_⟩
  · intro st cb h
    by_cases hc : st.connected
    · simp [connect, hc, isConnected, hc]
    · cases cb with
      | connectThrows => simp [connect, hc] at h
      | ok t =>
        simp only [connect, hc, if_false, Bool.false_eq_true] at h ⊢
        split at h
        · simp at h
        · simp [isConnected]
        · simp at h
  · intro st cb h
    simp [connect, h]

/-- Witness for C5 at concrete states: a fresh Controller client whose
registration succeeds ends Connected, and `connect` on an
already-connected client is the identity no-op. -/
theorem connection_state_machine_witness :
    isConnected (connect ⟨false, ClientType.REMOTE_CONTROLLER⟩
      (.ok (.reply (some (.obj [("success", .bool true)]))))).state = true ∧
    connect ⟨true, ClientType.NAVIGATION⟩ .connectThrows =
      ⟨.ok true, ⟨true, ClientType.NAVIGATION⟩, []⟩ :=
  ⟨connection_state_machine.1 _ _ rfl, connection_state_machine.2.2.2 _ _ rfl⟩

/-- C6: starting Disconnected, (a) a transport exception while opening
the socket makes `connect` return false with the session still
Disconnected and no registration attempted; (b) if the registration
round trip yields a reply whose `success` field is false or absent
(`value("success", false)` evaluating to false, which also covers the
synthesized failure envelopes), `connect` returns false, the session
ends Disconnected, and exactly one register envelope was sent — no
automatic retry. -/
theorem connect_failure_teardown (st : ClientState) (h : st.connected = false) :
    ((connect st .connectThrows).ret = .ok false ∧
      isConnected (connect st .connectThrows).state = false ∧
      (connect st .connectThrows).requests = []) ∧
    (∀ t : TransportBehavior,
      (sendRequest true t (registerRequest st.client_type)).response.valueBool
          "success" false = .ok false →
        (connect st (.ok t)).ret = .ok false ∧
        isConnected (connect st (.ok t)).state = false ∧
        (connect st (.ok t)).requests = [registerRequest st.client_type]) := by
  constructor
  · simp [connect, h, isConnected]
  · intro t ht
    simp [connect, h, ht, isConnected]

/-- Witness for C6: a Navigator client whose registration is answered
`{"success":false}` ends Disconnected, and one whose socket open throws
reports failure. -/
theorem connect_failure_teardown_witness :
    isConnected (connect ⟨false, ClientType.NAVIGATION⟩
      (.ok (.reply (some (.obj [("success", .bool false)]))))).state = false ∧
    (connect ⟨false, ClientType.NAVIGATION⟩ .connectThrows).ret = .ok false :=
  ⟨((connect_failure_teardown ⟨false, ClientType.NAVIGATION⟩ rfl).2
      (.reply (some (.obj [("success", .bool false)]))) rfl).2.1,
   (connect_failure_teardown ⟨false, ClientType.NAVIGATION⟩ rfl).1.1⟩

/-- C7: the request envelope built by `move(1.0, 0.0, 0.5)` is exactly
`{"command":"move","params":{"vx":1.0,"vy":0.0,"yaw_rate":0.5}}`: the
command name, the three parameter keys and their values, and nothing
else (the second conjunct pins the `0.5` literal to the rational it
denotes). -/
theorem move_request_shape :
    moveRequest 1 0 0.5 =
      .obj [("command", .str "move"),
        ("params", .obj [("vx", .num 1), ("vy", .num 0),
          ("yaw_rate", .num 0.5)])] ∧ (0.5 : ℚ) = 1 / 2 := by
  constructor
  · rfl
  · norm_num

/-- C8: result-code decoding for `standUp` and the other numeric
result-code operations (`lieDown`, `passive`, `jump`, `frontJump`,
`backflip`, `shakeHand`, `move`, `attitudeControl`, `twoLegStand`).
For each of them `{"success":true,"result":2}` yields 2 and
`{"success":false}` yields the numeric default 0 (for any parameter
values, where the operation takes any); a legitimate result of 0 is
indistinguishable from that failure reply; and in general the
`success` field is never consulted: changing it (to any value at all)
never changes what `standUp` returns. -/
theorem numeric_result_decoding :
    (standUp true resultTwoReply = .ok 2 ∧
      standUp true successFalseReply = .ok 0) ∧
    (lieDown true resultTwoReply = .ok 2 ∧
      lieDown true successFalseReply = .ok 0) ∧
    (passive true resultTwoReply = .ok 2 ∧
      passive true successFalseReply = .ok 0) ∧
    (jump true resultTwoReply = .ok 2 ∧
      jump true successFalseReply = .ok 0) ∧
    (frontJump true resultTwoReply = .ok 2 ∧
      frontJump true successFalseReply = .ok 0) ∧
    (backflip true resultTwoReply = .ok 2 ∧
      backflip true successFalseReply = .ok 0) ∧
    (shakeHand true resultTwoReply = .ok 2 ∧
      shakeHand true successFalseReply = .ok 0) ∧
    (∀ vx vy yaw_rate : ℚ,
      move true resultTwoReply vx vy yaw_rate = .ok 2 ∧
      move true successFalseReply vx vy yaw_rate = .ok 0) ∧
    (∀ roll_vel pitch_vel yaw_vel height_vel : ℚ,
      attitudeControl true resultTwoReply roll_vel pitch_vel yaw_vel height_vel =
        .ok 2 ∧
      attitudeControl true successFalseReply roll_vel pitch_vel yaw_vel height_vel =
        .ok 0) ∧
    (∀ vx yaw_rate : ℚ,
      twoLegStand true resultTwoReply vx yaw_rate = .ok 2 ∧
      twoLegStand true successFalseReply vx yaw_rate = .ok 0) ∧
    standUp true (.reply (some (.obj [("result", .num 0),
      ("success", .bool true)]))) =
      standUp true successFalseReply ∧
    (∀ (fs : List (String × JVal)) (v v2 : JVal),
      standUp true (.reply (some (.obj (insertField "success" v fs)))) =
        standUp true (.reply (some (.obj (insertField "success" v2 fs))))) := by
  refine ⟨⟨rfl, rfl⟩, ⟨rfl, rfl⟩, ⟨rfl, rfl⟩, ⟨rfl, rfl⟩, ⟨rfl, rfl⟩,
    ⟨rfl, rfl⟩, ⟨rfl, rfl⟩, fun _ _ _ => ⟨rfl, rfl⟩, fun _ _ _ _ => ⟨rfl, rfl⟩,
    fun _ _ => ⟨rfl, rfl⟩, rfl, ?_⟩
  intro fs v v2
  simp [standUp, sendRequest, JVal.valueNum,
    lookupField_insertField_ne "result" "success" _ fs (by decide)]

/-- C9: the socket identity equals `role_tag + "_" + timestamp` with
tag `"rc"` for REMOTE_CONTROLLER and `"nav"` for NAVIGATION, and two
clients constructed at distinct timestamps get distinct identity
strings, whatever their roles. -/
theorem identity_token_distinct :
    (∀ (ct : ClientType) (ts : Nat),
      identityString ct ts = roleTag ct ++ "_" ++ natToString ts) ∧
    roleTag ClientType.REMOTE_CONTROLLER = "rc" ∧
    roleTag ClientType.NAVIGATION = "nav" ∧
    (∀ (ct1 ct2 : ClientType) (t1 t2 : Nat),
      t1 ≠ t2 → identityString ct1 t1 ≠ identityString ct2 t2) := by
  refine ⟨fun ct ts => rfl, rfl, rfl, ?_⟩
  intro ct1 ct2 t1 t2 h heq
  have hdata := congrArg String.data heq
  cases ct1 <;> cases ct2 <;>
    simp [identityString, roleTag, natToString, String.data_append] at hdata <;>
    exact h (decDigits_injective hdata)

/-- Witness for C9: two concrete Controller clients at timestamps 5
and 7 receive distinct identity strings. -/
theorem identity_token_distinct_witness :
    identityString ClientType.REMOTE_CONTROLLER 5 ≠
      identityString ClientType.REMOTE_CONTROLLER 7 :=
  identity_token_distinct.2.2.2 ClientType.REMOTE_CONTROLLER
    ClientType.REMOTE_CONTROLLER 5 7 (by decide)

/-- C10 (implicit): whenever the decoded reply contains a `values`
field holding an array of numbers, the vector-returning operations
return that array exactly as received — even when `success` is false
and even when its length differs from the documented fixed length
(`vs` below is arbitrary); the fixed-length default is used only when
`values` is absent. -/
theorem values_passthrough :
    ∀ (vs : List ℚ) (s : Bool),
      getQuaternion true (.reply (some (.obj [("success", .bool s),
        ("values", .arr (vs.map .num))]))) = .ok vs ∧
      getLegAbadJoint true (.reply (some (.obj [("success", .bool s),
        ("values", .arr (vs.map .num))]))) = .ok vs ∧
      (∀ (cmd : String) (deflt : List ℚ),
        vectorQuery cmd deflt true (.reply (some (.obj [("success", .bool s),
          ("values", .arr (vs.map .num))]))) = .ok vs) ∧
      (∀ (cmd : String) (deflt : List ℚ) (j : JVal),
        j.containsKey "values" = false →
          vectorQuery cmd deflt true (.reply (some j)) = .ok deflt) := by
  intro vs s
  refine ⟨?_, ?_, ?_, ?_⟩
  · simp [getQuaternion, vectorQuery, sendRequest, JVal.containsKey,
      lookupField, JVal.objGetD, JVal.getFloats, getFloatsList_map_num]
  · simp [getLegAbadJoint, vectorQuery, sendRequest, JVal.containsKey,
      lookupField, JVal.objGetD, JVal.getFloats, getFloatsList_map_num]
  · intro cmd deflt
    simp [vectorQuery, sendRequest, JVal.containsKey,
      lookupField, JVal.objGetD, JVal.getFloats, getFloatsList_map_num]
  · intro cmd deflt j hj
    simp [vectorQuery, sendRequest, hj]

/-- Witness for C10: a success:false reply carrying the two-element
array `[1,2]` is returned verbatim by the four-element `getQuaternion`,
and an empty-object reply (no `values`) falls back to the default. -/
theorem values_passthrough_witness :
    getQuaternion true (.reply (some (.obj [("success", .bool false),
      ("values", .arr ([(1 : ℚ), 2].map .num))]))) = .ok [1, 2] ∧
    vectorQuery "getQuaternion" [0, 0, 0, 1] true (.reply (some (.obj []))) =
      .ok [0, 0, 0, 1] :=
  ⟨(values_passthrough [1, 2] false).1,
   (values_passthrough [1, 2] false).2.2.2 "getQuaternion" [0, 0, 0, 1]
     (.obj []) rfl⟩
